import Mathlib

/-!
Verification of the MCP stdio client scripts
(`client_stdio_inspect.py`, `client_stdio_toolcalls_interactive.py`)
against their design specification.

The two scripts are thin glue over an MCP client library; the spec in
addition describes the protocol-client core (Transport, Codec, Correlator,
Session, Capability Registry, Invocation Engine).  Functions present in the
source are embedded from the source; core components absent from the source
are modelled from the spec, and each such definition says so in its doc
comment.
-/

namespace Mcp

/-- JSON values as handled by the scripts.  Numbers are modelled as
integers (the concrete payloads exchanged by the scripts are integers;
floating point is outside the embedding). -/
inductive Json where
  | null : Json
  | bool (b : Bool) : Json
  | num (n : Int) : Json
  | str (s : String) : Json
  | arr (xs : List Json) : Json
  | obj (kvs : List (String × Json)) : Json

/-- Skip JSON whitespace, as `json.loads` does between tokens. -/
def skipWs : List Char → List Char
  | [] => []
  | c :: cs => if c = ' ' ∨ c = '\n' ∨ c = '\t' ∨ c = '\r' then skipWs cs else c :: cs

/-- Hexadecimal digit value, for string escapes. -/
def hexVal (c : Char) : Option Nat :=
  if '0' ≤ c ∧ c ≤ '9' then some (c.toNat - '0'.toNat)
  else if 'a' ≤ c ∧ c ≤ 'f' then some (c.toNat - 'a'.toNat + 10)
  else if 'A' ≤ c ∧ c ≤ 'F' then some (c.toNat - 'A'.toNat + 10)
  else none

/-- Parse the body of a JSON string after the opening quote, handling the
standard escapes; returns the decoded characters and the rest of the
input after the closing quote. -/
def parseStrBody (fuel : Nat) (cs : List Char) : Option (List Char × List Char) :=
  match fuel, cs with
  | 0, _ => none
  | _, [] => none
  | fuel + 1, c :: cs =>
    if c = '"' then some ([], cs)
    else if c = '\\' then
      match cs with
      | [] => none
      | e :: cs' =>
        let simpleEsc : Option Char :=
          if e = '"' then some '"'
          else if e = '\\' then some '\\'
          else if e = '/' then some '/'
          else if e = 'n' then some '\n'
          else if e = 't' then some '\t'
          else if e = 'r' then some '\r'
          else if e = 'b' then some (Char.ofNat 8)
          else if e = 'f' then some (Char.ofNat 12)
          else none
        match simpleEsc with
        | some d =>
          match parseStrBody fuel cs' with
          | some (rest, cs2) => some (d :: rest, cs2)
          | none => none
        | none =>
          if e = 'u' then
            match cs' with
            | a :: b :: c2 :: d2 :: cs2 =>
              match hexVal a, hexVal b, hexVal c2, hexVal d2 with
              | some ha, some hb, some hc, some hd =>
                let code := ((ha * 16 + hb) * 16 + hc) * 16 + hd
                match parseStrBody fuel cs2 with
                | some (rest, cs3) => some (Char.ofNat code :: rest, cs3)
                | none => none
              | _, _, _, _ => none
            | _ => none
          else none
    else
      match parseStrBody fuel cs with
      | some (rest, cs2) => some (c :: rest, cs2)
      | none => none

/-- Parse a run of decimal digits (at least one) into a natural number. -/
def parseDigits (fuel : Nat) (acc : Nat) (sawDigit : Bool) (cs : List Char) :
    Option (Nat × List Char) :=
  match fuel, cs with
  | 0, _ => none
  | _, [] => if sawDigit then some (acc, []) else none
  | fuel + 1, c :: cs =>
    if c.isDigit then parseDigits fuel (acc * 10 + (c.toNat - '0'.toNat)) true cs
    else if sawDigit then some (acc, c :: cs)
    else none

mutual

/-- Recursive-descent JSON value parser, modelling Python's `json.loads`
on the value grammar the scripts exchange (null, booleans, integers,
strings, arrays, objects). -/
def parseVal (fuel : Nat) (cs : List Char) : Option (Json × List Char) :=
  match fuel with
  | 0 => none
  | fuel + 1 =>
    match skipWs cs with
    | [] => none
    | 'n' :: 'u' :: 'l' :: 'l' :: rest => some (.null, rest)
    | 't' :: 'r' :: 'u' :: 'e' :: rest => some (.bool true, rest)
    | 'f' :: 'a' :: 'l' :: 's' :: 'e' :: rest => some (.bool false, rest)
    | '"' :: rest =>
      match parseStrBody (rest.length + 1) rest with
      | some (chars, cs2) => some (.str (String.mk chars), cs2)
      | none => none
    | '[' :: rest =>
      (match skipWs rest with
       | ']' :: cs2 => some (.arr [], cs2)
       | cs2 =>
         match parseArrItems fuel cs2 with
         | some (xs, cs3) => some (.arr xs, cs3)
         | none => none)
    | '\x7b' :: rest =>
      (match skipWs rest with
       | '\x7d' :: cs2 => some (.obj [], cs2)
       | cs2 =>
         match parseObjItems fuel cs2 with
         | some (kvs, cs3) => some (.obj kvs, cs3)
         | none => none)
    | '-' :: rest =>
      (match parseDigits (rest.length + 1) 0 false rest with
       | some (n, cs2) => some (.num (-(n : Int)), cs2)
       | none => none)
    | c :: rest =>
      if c.isDigit then
        match parseDigits (rest.length + 2) 0 false (c :: rest) with
        | some (n, cs2) => some (.num (n : Int), cs2)
        | none => none
      else none

/-- Parse one or more comma-separated array items up to `]`. -/
def parseArrItems (fuel : Nat) (cs : List Char) : Option (List Json × List Char) :=
  match fuel with
  | 0 => none
  | fuel + 1 =>
    match parseVal fuel cs with
    | none => none
    | some (x, cs2) =>
      match skipWs cs2 with
      | ',' :: cs3 =>
        (match parseArrItems fuel cs3 with
         | some (xs, cs4) => some (x :: xs, cs4)
         | none => none)
      | ']' :: cs3 => some ([x], cs3)
      | _ => none

/-- Parse one or more comma-separated object members up to the closing
brace. -/
def parseObjItems (fuel : Nat) (cs : List Char) : Option (List (String × Json) × List Char) :=
  match fuel with
  | 0 => none
  | fuel + 1 =>
    match skipWs cs with
    | '"' :: rest =>
      (match parseStrBody (rest.length + 1) rest with
       | some (kchars, cs2) =>
         (match skipWs cs2 with
          | ':' :: cs3 =>
            (match parseVal fuel cs3 with
             | some (v, cs4) =>
               (match skipWs cs4 with
                | ',' :: cs5 =>
                  (match parseObjItems fuel cs5 with
                   | some (kvs, cs6) => some ((String.mk kchars, v) :: kvs, cs6)
                   | none => none)
                | '\x7d' :: cs5 => some ([(String.mk kchars, v)], cs5)
                | _ => none)
             | none => none)
          | _ => none)
       | none => none)
    | _ => none

end

/-- Parse a whole JSON document, modelling `json.loads`: the input must be
a single JSON value with only whitespace around it; `none` models the
`json.JSONDecodeError` raised on anything else. -/
def parse (s : String) : Option Json :=
  match parseVal (s.length + 1) s.toList with
  | some (j, rest) => if skipWs rest = [] then some j else none
  | none => none

mutual

/-- Serialize a JSON value back to text; stands for
`json.dumps(parsed_content, indent=2)` in `format_mcp_result` (the exact
whitespace of the stdlib printer is not under test; no claim constrains
this output). -/
def dumpsJson : Json → String
  | .null => "null"
  | .bool true => "true"
  | .bool false => "false"
  | .num n => toString n
  | .str s => "\"" ++ s ++ "\""
  | .arr xs => "[" ++ dumpsArr xs ++ "]"
  | .obj kvs => "\x7b" ++ dumpsObj kvs ++ "\x7d"

/-- Serialize array elements, comma separated. -/
def dumpsArr : List Json → String
  | [] => ""
  | [x] => dumpsJson x
  | x :: xs => dumpsJson x ++ ", " ++ dumpsArr xs

/-- Serialize object members, comma separated. -/
def dumpsObj : List (String × Json) → String
  | [] => ""
  | [(k, v)] => "\"" ++ k ++ "\": " ++ dumpsJson v
  | (k, v) :: kvs => "\"" ++ k ++ "\": " ++ dumpsJson v ++ ", " ++ dumpsObj kvs

end

/-- One content item of a tool/resource result, as duck-typed by
`format_mcp_result`: either it has a `text` attribute holding a string, or
it does not, in which case only its printed representation `str(item)` is
ever used (carried here as a string). -/
inductive ContentItem where
  | text (s : String)
  | nonText (rep : String)

/-- A tool/resource call result, as duck-typed by `format_mcp_result`:
either it has a `content` attribute holding the ordered items, or it does
not and only `str(result)` is used. -/
inductive ResultVal where
  | withContent (items : List ContentItem)
  | noContent (rep : String)

/-- Embeds the per-item body of the loop in `format_mcp_result`
(client_stdio_toolcalls_interactive.py lines 24-34): a text item is
JSON-parsed on a best-effort basis — on success the parsed value is
pretty-printed, on `json.JSONDecodeError` the raw text is used — and a
non-text item is stringified. -/
def formatItem : ContentItem → String
  | .text s =>
    match parse s with
    | some j => dumpsJson j
    | none => s
  | .nonText r => r

/-- Embeds `format_mcp_result` (lines 20-37): with a `content` attribute
the items are formatted and joined with newlines; without one the result
is stringified. -/
def format_mcp_result : ResultVal → String
  | .withContent items => String.intercalate "\n" (items.map formatItem)
  | .noContent r => r

/-- Tagged content block of the spec (§3): `Text`, `Structured`, or
`Opaque` (constructor `raw` here). -/
inductive ContentBlock where
  | text (s : String)
  | structured (j : Json)
  | raw (rep : String)

/-- Content decoding policy (spec §4.6), the decision structure of the
branches of `format_mcp_result`: a text item whose string parses as JSON
becomes `structured`, one that does not stays `text`, and a non-text item
becomes the `raw` (spec: Opaque) block. -/
def decodeItem : ContentItem → ContentBlock
  | .text s =>
    match parse s with
    | some j => .structured j
    | none => .text s
  | .nonText r => .raw r

/-- Decode every content item of a result, in order. -/
def decodeContent (items : List ContentItem) : List ContentBlock :=
  items.map decodeItem

/-- A Python-level exception, carried as its message. -/
structure PyErr where
  msg : String
  deriving DecidableEq

/-- A schema value as consumed by `_print_schema`: either a dict (with the
four fields the function reads, each possibly absent) or any other value,
of which only `str(schema)` is used. -/
inductive SchemaVal where
  | dict (type? : Option String) (properties : Option (List (String × SchemaVal)))
      (required : Option (List String)) (descr : Option String)
  | other (rep : String)

mutual

/-- Embeds `_print_schema` (client_stdio_inspect.py lines 129-149) as the
list of lines it prints: for a dict, the type line (default `unknown`),
then each property recursively at indent+4, then the required and
description lines; for a non-dict, the stringified value. -/
def printSchema : SchemaVal → Nat → List String
  | .other r, indent => [String.mk (List.replicate indent ' ') ++ r]
  | .dict t props req d, indent =>
    let istr := String.mk (List.replicate indent ' ')
    [istr ++ "Type: " ++ t.getD "unknown"]
    ++ (match props with
        | none => []
        | some ps => (istr ++ "Properties:") :: printSchemaProps ps indent)
    ++ (match req with
        | none => []
        | some rs => [istr ++ "Required: " ++ String.intercalate ", " rs])
    ++ (match d with
        | none => []
        | some ds => [istr ++ "Description: " ++ ds])

/-- The `for prop_name, prop_schema in schema['properties'].items()` loop
of `_print_schema`: each property name line followed by the recursive
print of its sub-schema at indent+4. -/
def printSchemaProps : List (String × SchemaVal) → Nat → List String
  | [], _ => []
  | (nm, sub) :: rest, indent =>
    (String.mk (List.replicate indent ' ') ++ "  " ++ nm ++ ":")
      :: (printSchema sub (indent + 4) ++ printSchemaProps rest indent)

end

mutual

/-- Depth of the recursion `_print_schema` performs on a schema value: one
frame for the call itself plus the deepest recursive call made for a
property sub-schema.  The function recurses into every property value and
carries no depth parameter, so this measure is exactly its call depth. -/
def printSchemaDepth : SchemaVal → Nat
  | .other _ => 1
  | .dict _ props _ _ =>
    1 + (match props with
         | none => 0
         | some ps => printSchemaPropsDepth ps)

/-- Deepest recursion depth over a property list. -/
def printSchemaPropsDepth : List (String × SchemaVal) → Nat
  | [] => 0
  | (_, sub) :: rest => max (printSchemaDepth sub) (printSchemaPropsDepth rest)

end

/-- A schema dict nested `n` levels deep through `properties`, the shape
`_print_schema` recurses on. -/
def nest : Nat → SchemaVal
  | 0 => .other "leaf"
  | n + 1 => .dict (some "object") (some [("p", nest n)]) none none

/-- Tool record as listed by the inspect script. -/
structure ToolInfo where
  name : String
  description : Option String
  inputSchema : Option SchemaVal

/-- Resource record as listed by the inspect script. -/
structure ResourceInfo where
  uri : String
  name : Option String
  description : Option String
  mimeType : Option String

/-- One prompt argument record. -/
structure PromptArg where
  name : String
  description : Option String
  required : Option Bool

/-- Prompt record as listed by the inspect script. -/
structure PromptInfo where
  name : String
  description : Option String
  arguments : Option (List PromptArg)

/-- Outcome of one catalog listing: the extracted collection, or the error
message reported by the `except` clause. -/
inductive ListingOutcome (α : Type) where
  | listed (items : List α)
  | errorReported (msg : String)

/-- Embeds `tools_result.tools if hasattr(tools_result, 'tools') else []`
(client_stdio_inspect.py line 52): a result object without the attribute
yields the empty list. -/
def extractTools (r : Option (List ToolInfo)) : List ToolInfo := r.getD []

/-- Embeds the corresponding extraction for resources (line 78). -/
def extractResources (r : Option (List ResourceInfo)) : List ResourceInfo := r.getD []

/-- Embeds the corresponding extraction for prompts (line 104). -/
def extractPrompts (r : Option (List PromptInfo)) : List PromptInfo := r.getD []

/-- Body of `list_tools` (lines 48-72): the fetch either raises — reported
by the `except Exception` clause — or yields a result whose tools are
extracted. -/
def listToolsBody (fetch : Except PyErr (Option (List ToolInfo))) : ListingOutcome ToolInfo :=
  match fetch with
  | .ok r => .listed (extractTools r)
  | .error e => .errorReported e.msg

/-- Body of `list_resources` (lines 74-98). -/
def listResourcesBody (fetch : Except PyErr (Option (List ResourceInfo))) :
    ListingOutcome ResourceInfo :=
  match fetch with
  | .ok r => .listed (extractResources r)
  | .error e => .errorReported e.msg

/-- Body of `list_prompts` (lines 100-127). -/
def listPromptsBody (fetch : Except PyErr (Option (List PromptInfo))) :
    ListingOutcome PromptInfo :=
  match fetch with
  | .ok r => .listed (extractPrompts r)
  | .error e => .errorReported e.msg

/-- Embeds `list_tools`: its whole body is inside `try/except Exception`,
so the coroutine itself never propagates an exception (it always returns
normally, hence always `.ok`). -/
def list_tools (fetch : Except PyErr (Option (List ToolInfo))) :
    Except PyErr (ListingOutcome ToolInfo) :=
  .ok (listToolsBody fetch)

/-- Embeds `list_resources`; same containment of exceptions. -/
def list_resources (fetch : Except PyErr (Option (List ResourceInfo))) :
    Except PyErr (ListingOutcome ResourceInfo) :=
  .ok (listResourcesBody fetch)

/-- Embeds `list_prompts`; same containment of exceptions. -/
def list_prompts (fetch : Except PyErr (Option (List PromptInfo))) :
    Except PyErr (ListingOutcome PromptInfo) :=
  .ok (listPromptsBody fetch)

/-- One section of the inspect report, tagged by catalog. -/
inductive CatalogSection where
  | toolsSection (o : ListingOutcome ToolInfo)
  | resourcesSection (o : ListingOutcome ResourceInfo)
  | promptsSection (o : ListingOutcome PromptInfo)

/-- Embeds `inspect_server` (lines 151-162): awaits the three listing
coroutines in source order — tools, resources, prompts — in the exception
monad; an exception raised by any of the awaited calls would short-circuit
the sequence (and be caught by the outer handler), but the listing
functions catch internally and so always return. -/
def inspect_server (ft : Except PyErr (Option (List ToolInfo)))
    (fr : Except PyErr (Option (List ResourceInfo)))
    (fp : Except PyErr (Option (List PromptInfo))) :
    Except PyErr (List CatalogSection) := do
  let t ← list_tools ft
  let r ← list_resources fr
  let p ← list_prompts fp
  pure [.toolsSection t, .resourcesSection r, .promptsSection p]

/-- Application-level error object of a response (spec §3). -/
structure ErrorObject where
  code : Int
  message : String

/-- Body of a response: exactly one of `result`/`error`, enforced by
construction (spec §3, ResponseEnvelope). -/
inductive RespBody where
  | result (j : Json)
  | error (e : ErrorObject)

/-- Modelled from the spec: the three wire envelope variants of §3
(RequestEnvelope, ResponseEnvelope, NotificationEnvelope); the Codec is
part of the protocol-client core, which is not under src/. -/
inductive Envelope where
  | request (id : Int) (method : String) (params : Json)
  | response (id : Int) (body : RespBody)
  | notif (method : String) (params : Json)

/-- First value bound to a key in a JSON object. -/
def lookupField (kvs : List (String × Json)) (k : String) : Option Json :=
  match kvs.find? (fun kv => kv.1 == k) with
  | some kv => some kv.2
  | none => none

/-- Modelled from the spec: `encode(envelope) -> line` of §4.2, at the
JSON-value level (the newline framing of the line belongs to the
Transport); deterministic by being a function. -/
def encode : Envelope → Json
  | .request i m p => .obj [("id", .num i), ("method", .str m), ("params", p)]
  | .response i (.result j) => .obj [("id", .num i), ("result", j)]
  | .response i (.error e) =>
    .obj [("id", .num i),
          ("error", .obj [("code", .num e.code), ("message", .str e.message)])]
  | .notif m p => .obj [("method", .str m), ("params", p)]

/-- Codec decode failure (spec §4.2). -/
inductive DecodeError where
  | malformedMessage
  deriving DecidableEq

/-- Modelled from the spec: `decode(line)` of §4.2 — an id-bearing message
with a method is a request; an id-bearing message without a method must
carry exactly one of `result`/`error` (else `MalformedMessage`); a message
with a method and no id is a notification. -/
def decode (j : Json) : Except DecodeError Envelope :=
  match j with
  | .obj kvs =>
    (match lookupField kvs "id" with
     | some (.num i) =>
       (match lookupField kvs "method" with
        | some (.str m) => .ok (.request i m ((lookupField kvs "params").getD .null))
        | _ =>
          match lookupField kvs "result", lookupField kvs "error" with
          | some r, none => .ok (.response i (.result r))
          | none, some (.obj ekvs) =>
            (match lookupField ekvs "code", lookupField ekvs "message" with
             | some (.num c), some (.str ms) => .ok (.response i (.error ⟨c, ms⟩))
             | _, _ => .error .malformedMessage)
          | _, _ => .error .malformedMessage)
     | _ =>
       match lookupField kvs "method" with
       | some (.str m) => .ok (.notif m ((lookupField kvs "params").getD .null))
       | _ => .error .malformedMessage)
  | _ => .error .malformedMessage

/-- Modelled from the spec: PendingRequest of §3 (`completionSlot` is the
delivery of the `Delivery`/`CorrError` outcome and needs no field). -/
structure PendingRequest where
  id : Nat
  method : String
  createdAt : Nat
  deadline : Nat
  deriving DecidableEq

/-- Correlator-side request failures (spec §7 taxonomy). -/
inductive CorrError where
  | transportClosed (reason : String)
  | requestTimeout
  | duplicateId
  deriving DecidableEq

/-- Modelled from the spec: the Correlator of §4.3 — the map of pending
requests (as an ordered list with unique ids) plus the terminal closure
reason once `failAll` has run; the Correlator is part of the core, which
is not under src/. -/
structure Correlator where
  pending : List PendingRequest
  closedReason : Option String
  deriving DecidableEq

/-- Modelled from the spec: `register(id, method, deadline)` of §4.3 —
after closure it fails with `TransportClosed` (the same class of error as
`failAll` used), a pending duplicate id is `DuplicateId`, otherwise the
request is appended as pending. -/
def register (c : Correlator) (i : Nat) (m : String) (now dl : Nat) :
    Except CorrError Correlator :=
  match c.closedReason with
  | some r => .error (.transportClosed r)
  | none =>
    if c.pending.any (fun p => p.id == i) then .error .duplicateId
    else .ok { c with pending := c.pending ++ [⟨i, m, now, dl⟩] }

/-- Modelled from the spec: `failAll(reason)` of §4.3 — every currently
pending request is rejected with `TransportClosed reason` (the returned
event list), the pending map is emptied, and the closure reason is
recorded so that later `register` calls fail immediately. -/
def failAll (c : Correlator) (reason : String) : Correlator × List (Nat × CorrError) :=
  ({ pending := [], closedReason := some reason },
   c.pending.map (fun p => (p.id, .transportClosed reason)))

/-- Modelled from the spec: `expire(now)` of §4.3 — every pending request
whose deadline has passed is rejected with `RequestTimeout`; the others
stay pending. -/
def expire (c : Correlator) (now : Nat) : Correlator × List (Nat × CorrError) :=
  ({ c with pending := c.pending.filter (fun p => decide (now ≤ p.deadline)) },
   (c.pending.filter (fun p => decide (p.deadline < now))).map
     (fun p => (p.id, .requestTimeout)))

/-- Delivery outcome of a response frame (spec §4.3 `resolve`). -/
inductive Delivery where
  | delivered (p : PendingRequest) (payload : Json)
  | unsolicited (i : Nat)

/-- Modelled from the spec: `resolve(id, result)` of §4.3 — look up and
remove the pending request and deliver to it; if no such id is pending the
message is an `UnsolicitedResponse`, logged and dropped (the state is
unchanged). -/
def resolve (c : Correlator) (i : Nat) (payload : Json) : Correlator × Delivery :=
  match c.pending.find? (fun p => p.id == i) with
  | some p =>
    ({ c with pending := c.pending.filter (fun q => !(q.id == i)) }, .delivered p payload)
  | none => (c, .unsolicited i)

/-- Session states of spec §4.4. -/
inductive SState where
  | uninitialized
  | handshaking
  | ready
  | closing
  | closed
  | faulted
  deriving DecidableEq

/-- Position of a state in the forward order `Uninitialized → Handshaking
→ Ready → Closing → Closed`, with the terminal `Faulted` last (reachable
from every other state). -/
def SState.rank : SState → Nat
  | .uninitialized => 0
  | .handshaking => 1
  | .ready => 2
  | .closing => 3
  | .closed => 4
  | .faulted => 5

/-- Modelled from the spec: the transition relation of §4.4 — connect,
handshake success/failure, requests while Ready (a self-loop), close and
drain, and transport termination from any non-Faulted state; Faulted is
terminal (no rule leaves it). -/
inductive SessionStep : SState → SState → Prop where
  | connect : SessionStep .uninitialized .handshaking
  | handshakeOk : SessionStep .handshaking .ready
  | handshakeFail : SessionStep .handshaking .faulted
  | request : SessionStep .ready .ready
  | closeRequested : SessionStep .ready .closing
  | drained : SessionStep .closing .closed
  | transportTerminated (s : SState) (h : s ≠ .faulted) : SessionStep s .faulted

/-- Session-level request failure (spec §4.4). -/
inductive SessionError where
  | sessionNotReady
  deriving DecidableEq

/-- Modelled from the spec: the request gate of §4.4 — a request is sent
(its frame written) only when the Session is Ready, except that
`initialize` itself is sent during Handshaking; any other submission fails
with `SessionNotReady` and writes nothing.  The frame records the method;
id assignment and params are immaterial to the gate. -/
def submitRequest (s : SState) (m : String) : Except SessionError Unit × List Json :=
  if s = .ready then (.ok (), [encode (.request 0 m .null)])
  else if s = .handshaking ∧ m = "initialize" then (.ok (), [encode (.request 0 m .null)])
  else (.error .sessionNotReady, [])

/-- Tool record of the spec's Capability Registry (§3): name, optional
description, and an `inputSchema` tree. -/
structure Tool where
  name : String
  description : Option String
  inputSchema : SchemaVal

/-- Top-level `required` names of a schema tree (spec §4.6: only top-level
`required` presence is checked). -/
def SchemaVal.requiredOf : SchemaVal → List String
  | .dict _ _ req _ => req.getD []
  | .other _ => []

/-- Invocation failures surfaced by `callTool` before any frame is sent
(spec §4.6). -/
inductive CallError where
  | toolNotFound
  | argumentValidationError
  deriving DecidableEq

/-- Cached lookup by name (spec §4.5 `findTool`). -/
def findTool (catalog : List Tool) (nm : String) : Option Tool :=
  catalog.find? (fun t => t.name == nm)

/-- Modelled from the spec: `callTool(name, arguments)` of §4.6 up to the
point the request frame is written — the Invocation Engine is part of the
core, which is not under src/.  If the named tool's cached `inputSchema`
declares a top-level `required` field absent from `arguments`, the call
fails fast locally with `ArgumentValidationError`; the second component is
the list of frames written to the Transport, so a local failure writes
zero bytes. -/
def callTool (catalog : List Tool) (nm : String) (args : List (String × Json))
    (reqId : Int) : Except CallError Envelope × List Json :=
  match findTool catalog nm with
  | none => (.error .toolNotFound, [])
  | some t =>
    if t.inputSchema.requiredOf.any (fun r => !(args.any (fun kv => kv.1 == r))) then
      (.error .argumentValidationError, [])
    else
      let env := Envelope.request reqId "tools/call"
        (.obj [("name", .str nm), ("arguments", .obj args)])
      (.ok env, [encode env])

/-- Depth of `_print_schema`'s recursion on the `n`-fold nested schema:
one frame per nesting level plus the leaf. -/
theorem printSchemaDepth_nest (n : Nat) : printSchemaDepth (nest n) = n + 1 := by
  induction n with
  | zero => rfl
  | succ n ih =>
    simp [nest, printSchemaDepth, printSchemaPropsDepth, ih]
    omega

/-- C1: for every tool/resource result the content decoding is: a text
item whose string parses as JSON decodes to Structured, a text item whose
string does not parse stays Text, a non-text item becomes Opaque (`raw`),
decoding is total, and the single text item `{"results":[]}` decodes to
the one-element sequence holding Structured of the object
`results ↦ []`. -/
theorem C1_content_decoding_policy :
    (∀ s j, parse s = some j → decodeItem (.text s) = .structured j)
    ∧ (∀ s, parse s = none → decodeItem (.text s) = .text s)
    ∧ (∀ r, decodeItem (.nonText r) = .raw r)
    ∧ decodeContent [.text "\x7b\"results\":[]\x7d"]
        = [.structured (.obj [("results", .arr [])])] := by
  refine ⟨fun s j h => ?_, fun s h => ?_, fun r => rfl, rfl⟩
  · simp [decodeItem, h]
  · simp [decodeItem, h]

/-- C1 witness: the policy applied at a parsing and a non-parsing text
item. -/
theorem C1_content_decoding_policy_witness :
    decodeItem (.text "[]") = .structured (.arr [])
    ∧ decodeItem (.text "pong") = .text "pong" :=
  ⟨C1_content_decoding_policy.1 "[]" (.arr []) rfl,
   C1_content_decoding_policy.2.1 "pong" rfl⟩

/-- C2: decoding the encoding of any valid envelope (request, response
with exactly one of result/error — enforced by the `RespBody` type — or
notification) yields the envelope again. -/
theorem C2_codec_round_trip (e : Envelope) : decode (encode e) = .ok e := by
  cases e with
  | request i m p => rfl
  | response i b =>
    cases b with
    | result j => rfl
    | error eo => rfl
  | notif m p => rfl

/-- C3: after `failAll reason`, every request pending at that moment is
rejected with `TransportClosed reason`, any later `register` fails
immediately with the same class of error, and no pending entry is
created. -/
theorem C3_failAll_atomic (c : Correlator) (reason : String) (p : PendingRequest)
    (hp : p ∈ c.pending) (i : Nat) (m : String) (now dl : Nat) :
    (p.id, CorrError.transportClosed reason) ∈ (failAll c reason).2
    ∧ register (failAll c reason).1 i m now dl = .error (.transportClosed reason)
    ∧ (failAll c reason).1.pending = [] :=
  ⟨List.mem_map_of_mem _ hp, rfl, rfl⟩

/-- C3 witness: one pending request, failed on transport loss; a later
register fails the same way. -/
theorem C3_failAll_atomic_witness :
    ((1 : Nat), CorrError.transportClosed "server exited")
        ∈ (failAll ⟨[⟨1, "tools/list", 0, 50⟩], none⟩ "server exited").2
    ∧ register (failAll ⟨[⟨1, "tools/list", 0, 50⟩], none⟩ "server exited").1 2
          "tools/call" 1 60
        = .error (.transportClosed "server exited")
    ∧ (failAll ⟨[⟨1, "tools/list", 0, 50⟩], none⟩ "server exited").1.pending = [] :=
  C3_failAll_atomic _ "server exited" ⟨1, "tools/list", 0, 50⟩
    (List.mem_singleton.mpr rfl) 2 "tools/call" 1 60

/-- C4: a pending request whose deadline has passed is rejected with
`RequestTimeout` by `expire`; a response for its id arriving afterwards is
an unsolicited response (dropped, state unchanged) rather than a delivery;
pending requests whose deadline has not passed stay pending. -/
theorem C4_expire_and_late_response (c : Correlator) (now : Nat) (p : PendingRequest)
    (payload : Json) (hp : p ∈ c.pending) (hd : p.deadline < now)
    (hu : ∀ q ∈ c.pending, q.id = p.id → q = p) :
    (p.id, CorrError.requestTimeout) ∈ (expire c now).2
    ∧ resolve (expire c now).1 p.id payload = ((expire c now).1, .unsolicited p.id)
    ∧ ∀ q ∈ c.pending, now ≤ q.deadline → q ∈ (expire c now).1.pending := by
  refine ⟨?_, ?_, ?_⟩
  · exact List.mem_map_of_mem _ (List.mem_filter.mpr ⟨hp, by simpa using hd⟩)
  · have hnone : ((expire c now).1.pending).find? (fun q => q.id == p.id) = none := by
      apply List.find?_eq_none.mpr
      intro q hq hbeq
      rcases List.mem_filter.mp hq with ⟨hqmem, hqkeep⟩
      simp only [decide_eq_true_eq] at hqkeep
      have hqid : q.id = p.id := by simpa using hbeq
      have hqp := hu q hqmem hqid
      subst hqp
      omega
    simp [resolve, hnone]
  · intro q hq hkeep
    exact List.mem_filter.mpr ⟨hq, by simpa using hkeep⟩

/-- C4 witness: of two pending requests only the expired one times out; a
late response for it is unsolicited; the other stays pending. -/
theorem C4_expire_and_late_response_witness :
    ((1 : Nat), CorrError.requestTimeout)
        ∈ (expire ⟨[⟨1, "a", 0, 5⟩, ⟨2, "b", 0, 99⟩], none⟩ 10).2
    ∧ resolve (expire ⟨[⟨1, "a", 0, 5⟩, ⟨2, "b", 0, 99⟩], none⟩ 10).1 1 .null
        = ((expire ⟨[⟨1, "a", 0, 5⟩, ⟨2, "b", 0, 99⟩], none⟩ 10).1, .unsolicited 1)
    ∧ ∀ q ∈ ([⟨1, "a", 0, 5⟩, ⟨2, "b", 0, 99⟩] : List PendingRequest),
        10 ≤ q.deadline → q ∈ (expire ⟨[⟨1, "a", 0, 5⟩, ⟨2, "b", 0, 99⟩], none⟩ 10).1.pending :=
  C4_expire_and_late_response _ 10 ⟨1, "a", 0, 5⟩ .null (by simp) (by decide) (by decide)

/-- C5: the session state machine only moves forward — every transition is
rank-monotone, Faulted is terminal — and any request other than
`initialize` submitted while the session is not Ready is not sent (no
frame is written) and fails with `SessionNotReady`. -/
theorem C5_forward_only_and_gating :
    (∀ s t : SState, SessionStep s t → s.rank ≤ t.rank)
    ∧ (∀ t : SState, ¬ SessionStep .faulted t)
    ∧ (∀ (s : SState) (m : String), m ≠ "initialize" → s ≠ .ready →
        submitRequest s m = (.error .sessionNotReady, [])) := by
  refine ⟨?_, ?_, ?_⟩
  · intro s t h
    cases h with
    | connect => decide
    | handshakeOk => decide
    | handshakeFail => decide
    | request => decide
    | closeRequested => decide
    | drained => decide
    | transportTerminated s hne => cases s <;> decide
  · intro t h
    cases h with
    | transportTerminated _ hne => exact hne rfl
  · intro s m hm hs
    unfold submitRequest
    rw [if_neg hs, if_neg (fun hc => hm hc.2)]

/-- C5 witness: the connect transition moves forward in rank, and a
`tools/list` request submitted in the Closed state is rejected unsent. -/
theorem C5_forward_only_and_gating_witness :
    SState.rank .uninitialized ≤ SState.rank .handshaking
    ∧ submitRequest .closed "tools/list" = (.error .sessionNotReady, []) :=
  ⟨C5_forward_only_and_gating.1 _ _ SessionStep.connect,
   C5_forward_only_and_gating.2.2 .closed "tools/list" (by decide) (by decide)⟩

/-- C6: a `callTool` whose named tool's cached inputSchema lists a
top-level required field absent from the arguments fails locally with
`ArgumentValidationError` and writes zero frames to the Transport. -/
theorem C6_missing_required_argument (catalog : List Tool) (nm : String)
    (args : List (String × Json)) (reqId : Int) (t : Tool) (r : String)
    (hf : findTool catalog nm = some t) (hr : r ∈ t.inputSchema.requiredOf)
    (ha : ∀ kv ∈ args, kv.1 ≠ r) :
    callTool catalog nm args reqId = (.error .argumentValidationError, []) := by
  have hval : (t.inputSchema.requiredOf.any
      (fun r' => !(args.any (fun kv => kv.1 == r')))) = true := by
    apply List.any_eq_true.mpr
    refine ⟨r, hr, ?_⟩
    simp only [Bool.not_eq_true']
    apply List.any_eq_false.mpr
    intro kv hkv
    simpa using ha kv hkv
  simp [callTool, hf, hval]

/-- C6 witness: calling `send_message` with the required `recipient`
argument missing fails locally with no frame written. -/
theorem C6_missing_required_argument_witness :
    callTool
      [⟨"send_message", none,
        .dict (some "object") (some []) (some ["recipient", "message"]) none⟩]
      "send_message" [("message", .str "hi")] 7
      = (.error .argumentValidationError, []) :=
  C6_missing_required_argument _ _ _ 7
    ⟨"send_message", none,
      .dict (some "object") (some []) (some ["recipient", "message"]) none⟩
    "recipient" rfl (by decide) (by decide)

/-- C7 (refutation of the depth cap): `_print_schema` carries no depth
bound — its recursion depth on nested `properties` exceeds every cap, so
on a pathological (cyclic) schema value the traversal would recurse
without bound. -/
theorem C7_no_depth_cap :
    ¬ ∃ cap : Nat, ∀ s : SchemaVal, printSchemaDepth s ≤ cap := by
  rintro ⟨cap, h⟩
  have hc := h (nest cap)
  rw [printSchemaDepth_nest] at hc
  omega

/-- C8: an empty (or absent) catalog makes each listing function return
the empty sequence, not an error. -/
theorem C8_empty_catalog_listing :
    list_tools (.ok (some [])) = .ok (.listed [])
    ∧ list_tools (.ok none) = .ok (.listed [])
    ∧ list_resources (.ok (some [])) = .ok (.listed [])
    ∧ list_resources (.ok none) = .ok (.listed [])
    ∧ list_prompts (.ok (some [])) = .ok (.listed [])
    ∧ list_prompts (.ok none) = .ok (.listed []) :=
  ⟨rfl, rfl, rfl, rfl, rfl, rfl⟩

/-- C9: `format_mcp_result` is total and follows its fallbacks — a result
without content is stringified, a text item whose JSON parse fails falls
back to the raw text, a non-text item is stringified, and a result with
content is the newline join of the per-item formatting. -/
theorem C9_format_mcp_result_total :
    (∀ r, format_mcp_result (.noContent r) = r)
    ∧ (∀ items, format_mcp_result (.withContent items)
        = String.intercalate "\n" (items.map formatItem))
    ∧ (∀ s, parse s = none → formatItem (.text s) = s)
    ∧ (∀ r, formatItem (.nonText r) = r) := by
  refine ⟨fun r => rfl, fun items => rfl, fun s h => ?_, fun r => rfl⟩
  simp [formatItem, h]

/-- C9 witness: the JSON-parse fallback at a non-JSON text item. -/
theorem C9_format_mcp_result_total_witness :
    formatItem (.text "oops") = "oops" :=
  C9_format_mcp_result_total.2.2.1 "oops" rfl

/-- C10: a raising catalog fetch is caught inside its listing function —
`inspect_server` reports the error in the tools section and still lists
resources and prompts, always in the order tools, resources, prompts; more
generally no fetch outcome ever short-circuits the sequence. -/
theorem C10_listing_isolation :
    (∀ (e : PyErr) (fr : Except PyErr (Option (List ResourceInfo)))
        (fp : Except PyErr (Option (List PromptInfo))),
      inspect_server (.error e) fr fp
        = .ok [.toolsSection (.errorReported e.msg),
               .resourcesSection (listResourcesBody fr),
               .promptsSection (listPromptsBody fp)])
    ∧ ∀ (ft : Except PyErr (Option (List ToolInfo)))
        (fr : Except PyErr (Option (List ResourceInfo)))
        (fp : Except PyErr (Option (List PromptInfo))),
      inspect_server ft fr fp
        = .ok [.toolsSection (listToolsBody ft),
               .resourcesSection (listResourcesBody fr),
               .promptsSection (listPromptsBody fp)] :=
  ⟨fun _ _ _ => rfl, fun _ _ _ => rfl⟩

end Mcp
